import Mathlib

/-!
Verification of the django-delete-all repository: a shallow embedding of
the safety-policy evaluator (src/django_delete_all/safety.py), the
management command (src/django_delete_all/management/commands/delete_all.py)
and the admin action (src/django_delete_all/admin.py), together with
theorems settling the frozen claims about the specification.

Modelling conventions: Python ints are Int; Python sets of strings are
List String with membership; the reason strings attached to blocked
decisions are abstracted to the constructors of BlockReason, each carrying
the data interpolated into the corresponding message; raising SafetyError
is modelled by returning Decision.Blocked; writes to stdout, the audit
logger and the ORM delete call are recorded as explicit events and flags in
the results of the front-end models.
-/

/-- A Django model identifier: the app label (namespace) and the model
class name, as read from model._meta.app_label and model.__name__. -/
structure ModelIdentifier where
  app_label : String
  name : String
deriving DecidableEq, Repr

/-- The string f-interpolation app_label.ModelName built by
SafetyConfig.can_delete_model for the excluded-models lookup
(safety.py line 61). -/
def ModelIdentifier.label (m : ModelIdentifier) : String :=
  m.app_label ++ "." ++ m.name

/-- The DJANGO_DELETE_ALL settings mapping, with each field holding the
result of the corresponding dict .get call, defaults already applied
(safety.py lines 19 to 33). -/
structure DeleteAllSettings where
  ENABLED : Bool
  PRODUCTION_ENABLED : Bool
  EXCLUDED_APPS : List String
  EXCLUDED_MODELS : List String
  MAX_OBJECTS_WITHOUT_CONFIRMATION : Int
  REQUIRE_CONFIRMATION_ABOVE : Int
  AUDIT_DELETIONS : Bool
  BACKUP_BEFORE_DELETE : Bool
deriving DecidableEq, Repr

/-- The default settings values of safety.py: ENABLED true,
PRODUCTION_ENABLED false, the six default excluded apps, no excluded
models, max 100, confirmation above 10, audit on, backup off. -/
def defaultSettings : DeleteAllSettings :=
  ⟨true, false,
   ["auth", "admin", "contenttypes", "sessions", "messages", "staticfiles"],
   [], 100, 10, true, false⟩

/-- The two environment variables read by
SafetyConfig._apply_environment_overrides, each holding the result of
os.environ.get with default empty string (safety.py lines 40 and 48). -/
structure OsEnviron where
  django_env : String
  django_delete_all_disabled : String
deriving DecidableEq, Repr

/-- The loaded SafetyConfig attribute state after load_settings
(safety.py lines 14 to 36). -/
structure SafetyConfig where
  enabled : Bool
  production_enabled : Bool
  excluded_apps : List String
  excluded_models : List String
  max_objects_without_confirmation : Int
  require_confirmation_above : Int
  audit_deletions : Bool
  backup_before_delete : Bool
deriving DecidableEq, Repr

/-- Python str.lower, modelled over the character list of the string. -/
def toLowerStr (s : String) : String :=
  ⟨s.data.map Char.toLower⟩

/-- True when the first list is an initial segment of the second. -/
def charsLeadWith : List Char → List Char → Bool
  | [], _ => true
  | _ :: _, [] => false
  | p :: ps, c :: cs => p == c && charsLeadWith ps cs

/-- True when pat occurs as a contiguous segment of the second list. -/
def charsOccur (pat : List Char) : List Char → Bool
  | [] => charsLeadWith pat []
  | c :: cs => charsLeadWith pat (c :: cs) || charsOccur pat cs

/-- Substring test of the Python in operator on strings: true when pat
occurs inside s. -/
def strContains (s pat : String) : Bool :=
  charsOccur pat.data s.data

/-- The test env in [p, prod] of safety.py line 42, applied to the
lowercased DJANGO_ENV value. -/
def isProdEnvName (s : String) : Bool :=
  toLowerStr s == "production" || toLowerStr s == "prod"

/-- SafetyConfig._apply_environment_overrides (safety.py lines 38 to 49):
first the production check on DJANGO_ENV gated by production_enabled, then
the unconditional explicit-disable check on DJANGO_DELETE_ALL_DISABLED. -/
def apply_environment_overrides (env : OsEnviron) (cfg : SafetyConfig) : SafetyConfig :=
  let cfg1 :=
    if isProdEnvName env.django_env && !cfg.production_enabled then
      { cfg with enabled := false }
    else cfg
  if toLowerStr env.django_delete_all_disabled == "true" ||
     toLowerStr env.django_delete_all_disabled == "1" then
    { cfg1 with enabled := false }
  else cfg1

/-- SafetyConfig.load_settings (safety.py lines 14 to 36): copy the settings
values into the config attributes, then apply the environment overrides. -/
def load_settings (s : DeleteAllSettings) (env : OsEnviron) : SafetyConfig :=
  apply_environment_overrides env
    ⟨s.ENABLED, s.PRODUCTION_ENABLED, s.EXCLUDED_APPS, s.EXCLUDED_MODELS,
     s.MAX_OBJECTS_WITHOUT_CONFIRMATION, s.REQUIRE_CONFIRMATION_ABOVE,
     s.AUDIT_DELETIONS, s.BACKUP_BEFORE_DELETE⟩

/-- SafetyConfig.is_enabled (safety.py lines 51 to 53). -/
def is_enabled (cfg : SafetyConfig) : Bool :=
  cfg.enabled

/-- The reason attached to a refused deletion, abstracting the message
strings of safety.py; each constructor carries the data interpolated into
the corresponding message. -/
inductive BlockReason where
  | disabled
  | appExcluded (app_label : String)
  | modelExcluded (label : String)
  | tooManyObjects (count limit : Int)
deriving DecidableEq, Repr

/-- The outcome of the comprehensive safety check: SafetyError raised with
a reason, or the check passing. -/
inductive Decision where
  | Allowed
  | Blocked (reason : BlockReason)
deriving DecidableEq, Repr

/-- SafetyConfig.can_delete_model (safety.py lines 55 to 69): none means
the pair (True, OK); some r means (False, reason r). -/
def can_delete_model (cfg : SafetyConfig) (m : ModelIdentifier) : Option BlockReason :=
  if !is_enabled cfg then some BlockReason.disabled
  else if cfg.excluded_apps.contains m.app_label then
    some (BlockReason.appExcluded m.app_label)
  else if cfg.excluded_models.contains m.label then
    some (BlockReason.modelExcluded m.label)
  else none

/-- SafetyConfig.requires_confirmation (safety.py lines 71 to 73). -/
def requires_confirmation (cfg : SafetyConfig) (object_count : Int) : Bool :=
  decide (object_count > cfg.require_confirmation_above)

/-- SafetyConfig.allows_bulk_delete (safety.py lines 75 to 80): none means
(True, OK); some r means (False, too-many-objects reason). -/
def allows_bulk_delete (cfg : SafetyConfig) (object_count : Int) : Option BlockReason :=
  if object_count > cfg.max_objects_without_confirmation then
    some (BlockReason.tooManyObjects object_count cfg.max_objects_without_confirmation)
  else none

/-- check_deletion_safety (safety.py lines 87 to 99): first
can_delete_model, then allows_bulk_delete; the first failing check raises
SafetyError with its reason, modelled as Decision.Blocked. -/
def check_deletion_safety (cfg : SafetyConfig) (m : ModelIdentifier)
    (object_count : Int) : Decision :=
  match can_delete_model cfg m with
  | some r => Decision.Blocked r
  | none =>
    match allows_bulk_delete cfg object_count with
    | some r => Decision.Blocked r
    | none => Decision.Allowed

/-- Modelled from the spec: the rule list of section 4.1 as one flat
decision chain — disabled, then excluded namespace, then excluded
identifier, then the count threshold, otherwise Allowed. Used only to
compare the code path with the stated rule order. -/
def evaluate_spec (cfg : SafetyConfig) (m : ModelIdentifier) (count : Int) : Decision :=
  if !is_enabled cfg then Decision.Blocked BlockReason.disabled
  else if cfg.excluded_apps.contains m.app_label then
    Decision.Blocked (BlockReason.appExcluded m.app_label)
  else if cfg.excluded_models.contains m.label then
    Decision.Blocked (BlockReason.modelExcluded m.label)
  else if count > cfg.max_objects_without_confirmation then
    Decision.Blocked (BlockReason.tooManyObjects count cfg.max_objects_without_confirmation)
  else Decision.Allowed

/-- Modelled from the spec: the production-indicator of section 4.1 — an
explicit environment flag, or a naming heuristic on the configured
datastore name. The construction-time code of safety.py takes no datastore
name at all; this definition follows the words of the spec so that the
claim about construction-time overrides can be stated and compared with
load_settings. -/
def production_indicator_spec (env : OsEnviron) (db_name : String) : Bool :=
  isProdEnvName env.django_env ||
    strContains (toLowerStr db_name) "prod" ||
    strContains (toLowerStr db_name) "production"

/-- The external state observed by one run of the delete_all management
command: the Django settings DEBUG attribute (with its hasattr test), the
DJANGO_ENV variable, the default database NAME, whether the app and model
lookups succeed, the model class name, the live object count, the text the
user types at the confirmation prompt and the result of the ORM delete
call (none models the call raising). -/
structure CommandEnv where
  has_debug : Bool
  debug : Bool
  django_env : String
  db_name : String
  appExists : Bool
  modelExists : Bool
  model_class_name : String
  object_count : Int
  confirm_input : String
  delete_result : Option (Int × List (String × Int))
deriving DecidableEq, Repr

/-- The parsed options of the delete_all management command
(delete_all.py lines 39 to 44); model_name none means the positional model
argument was omitted. -/
structure CommandOptions where
  model_name : Option String
  force : Bool
  dry_run : Bool
  production_override : Bool
deriving DecidableEq, Repr

/-- Command._is_safe_environment (delete_all.py lines 148 to 164): DEBUG
check, then DJANGO_ENV, then the production indicators in the lowercased
default database name. -/
def is_safe_environment (e : CommandEnv) : Bool :=
  if e.has_debug && !e.debug then false
  else if isProdEnvName e.django_env then false
  else if strContains (toLowerStr e.db_name) "prod" ||
          strContains (toLowerStr e.db_name) "production" then false
  else true

/-- The observable events of one run of Command.handle whose order or
absence the claims are about: the found-count message, the interactive
prompt, the final safety check with its decision, and the ORM delete
call. -/
inductive CmdEvent where
  | wroteFoundCount (n : Int)
  | promptShown
  | policyChecked (d : Decision)
  | deleteCalled
deriving DecidableEq, Repr

/-- The CommandError raised before any deletion work (delete_all.py lines
47 to 71). -/
inductive CmdError where
  | productionDisabled
  | appNotFound
  | modelNotFound
deriving DecidableEq, Repr

/-- The terminal result of one run of Command.handle. -/
inductive CmdOutcome where
  | error (e : CmdError)
  | listed
  | nothingToDelete
  | dryRun (count : Int)
  | cancelled
  | blockedBySafety (r : BlockReason)
  | deletionError
  | succeeded (deleted : Int)
deriving DecidableEq, Repr

/-- The Perform-deletion block of Command.handle (delete_all.py lines 105
to 132): the final check_deletion_safety call, then the transactional
delete on success, with SafetyError turned into the blocked CommandError
and any delete exception into the deletion-error CommandError; base is the
event trace accumulated before this block. -/
def final_deletion_step (cfg : SafetyConfig) (ident : ModelIdentifier) (count : Int)
    (delres : Option (Int × List (String × Int))) (base : List CmdEvent) :
    List CmdEvent × CmdOutcome :=
  match check_deletion_safety cfg ident count with
  | Decision.Blocked r =>
    (base ++ [CmdEvent.policyChecked (Decision.Blocked r)],
     CmdOutcome.blockedBySafety r)
  | Decision.Allowed =>
    match delres with
    | none =>
      (base ++ [CmdEvent.policyChecked Decision.Allowed, CmdEvent.deleteCalled],
       CmdOutcome.deletionError)
    | some (n, _) =>
      (base ++ [CmdEvent.policyChecked Decision.Allowed, CmdEvent.deleteCalled],
       CmdOutcome.succeeded n)

/-- Command.handle (delete_all.py lines 39 to 132): environment gate, app
and model lookup, count, zero-count early return, dry-run early return,
then either the forced path straight to the deletion block, or the
interactive prompt followed by cancellation or the deletion block. Returns
the event trace in program order together with the terminal outcome. -/
def command_handle (cfg : SafetyConfig) (e : CommandEnv) (app_label : String)
    (o : CommandOptions) : List CmdEvent × CmdOutcome :=
  if !is_safe_environment e && !o.production_override then
    ([], CmdOutcome.error CmdError.productionDisabled)
  else if !e.appExists then ([], CmdOutcome.error CmdError.appNotFound)
  else
    match o.model_name with
    | none => ([], CmdOutcome.listed)
    | some _ =>
      if !e.modelExists then ([], CmdOutcome.error CmdError.modelNotFound)
      else if e.object_count = 0 then ([], CmdOutcome.nothingToDelete)
      else if o.dry_run then
        ([CmdEvent.wroteFoundCount e.object_count], CmdOutcome.dryRun e.object_count)
      else if o.force then
        final_deletion_step cfg ⟨app_label, e.model_class_name⟩ e.object_count
          e.delete_result [CmdEvent.wroteFoundCount e.object_count]
      else if toLowerStr e.confirm_input != "yes" then
        ([CmdEvent.wroteFoundCount e.object_count, CmdEvent.promptShown],
         CmdOutcome.cancelled)
      else
        final_deletion_step cfg ⟨app_label, e.model_class_name⟩ e.object_count
          e.delete_result
          [CmdEvent.wroteFoundCount e.object_count, CmdEvent.promptShown]

/-- The external state observed by one run of the delete_all_action admin
action: the permission check result, the object count of the changelist
model, whether the request is the confirmation POST, and the result of the
ORM delete call (none models the call raising). -/
structure AdminEnv where
  has_delete_permission : Bool
  object_count : Int
  is_confirmation_post : Bool
  delete_result : Option (Int × List (String × Int))
deriving DecidableEq, Repr

/-- The user-visible terminal result of delete_all_action. -/
inductive AdminOutcome where
  | permissionDenied
  | blockedMessage (r : BlockReason)
  | deletionErrorMessage
  | successMessage (deleted : Int)
  | nothingToDeleteMessage
  | confirmationPage (count : Int) (requires_conf : Bool)
deriving DecidableEq, Repr

/-- The full observable result of delete_all_action: the outcome, whether
log_deletion_attempt wrote an audit entry, whether log_deletion_success
wrote one, and whether the ORM delete call was made. -/
structure AdminResult where
  outcome : AdminOutcome
  attemptLogged : Bool
  successLogged : Bool
  deleteCalled : Bool
deriving DecidableEq, Repr

/-- delete_all_action (admin.py lines 10 to 120): permission check, then
check_deletion_safety with a graceful error message on SafetyError, then
log_deletion_attempt, then either the deletion branch of the confirmation
POST or the confirmation page. The audit logging functions write an entry
exactly when cfg.audit_deletions holds (safety.py lines 102 to 121). -/
def delete_all_action (cfg : SafetyConfig) (m : ModelIdentifier) (e : AdminEnv) :
    AdminResult :=
  if !e.has_delete_permission then ⟨AdminOutcome.permissionDenied, false, false, false⟩
  else
    match check_deletion_safety cfg m e.object_count with
    | Decision.Blocked r => ⟨AdminOutcome.blockedMessage r, false, false, false⟩
    | Decision.Allowed =>
      let attemptLogged := cfg.audit_deletions
      if e.is_confirmation_post then
        if e.object_count > 0 then
          match e.delete_result with
          | none => ⟨AdminOutcome.deletionErrorMessage, attemptLogged, false, true⟩
          | some (n, _) =>
            ⟨AdminOutcome.successMessage n, attemptLogged, cfg.audit_deletions, true⟩
        else ⟨AdminOutcome.nothingToDeleteMessage, attemptLogged, false, false⟩
      else
        ⟨AdminOutcome.confirmationPage e.object_count (requires_confirmation cfg e.object_count),
         attemptLogged, false, false⟩

/-- Helper: when the evaluation is Blocked the deletion block only records
the policy check and reports the blocked outcome. -/
theorem final_deletion_step_of_blocked (cfg : SafetyConfig) (ident : ModelIdentifier)
    (count : Int) (delres : Option (Int × List (String × Int))) (base : List CmdEvent)
    (r : BlockReason) (h : check_deletion_safety cfg ident count = Decision.Blocked r) :
    final_deletion_step cfg ident count delres base =
      (base ++ [CmdEvent.policyChecked (Decision.Blocked r)],
       CmdOutcome.blockedBySafety r) := by
  unfold final_deletion_step
  rw [h]

/-- Helper: a succeeded outcome of the deletion block implies the
evaluation was Allowed. -/
theorem final_deletion_step_succeeded (cfg : SafetyConfig) (ident : ModelIdentifier)
    (count : Int) (delres : Option (Int × List (String × Int))) (base : List CmdEvent)
    (n : Int)
    (h : (final_deletion_step cfg ident count delres base).2 = CmdOutcome.succeeded n) :
    check_deletion_safety cfg ident count = Decision.Allowed := by
  cases hc : check_deletion_safety cfg ident count with
  | Allowed => rfl
  | Blocked r =>
    exfalso
    unfold final_deletion_step at h
    rw [hc] at h
    simp at h

/-- Helper: a blocked outcome of the deletion block implies the evaluation
was Blocked with that very reason. -/
theorem final_deletion_step_blocked_of_snd (cfg : SafetyConfig) (ident : ModelIdentifier)
    (count : Int) (delres : Option (Int × List (String × Int))) (base : List CmdEvent)
    (r : BlockReason)
    (h : (final_deletion_step cfg ident count delres base).2 =
      CmdOutcome.blockedBySafety r) :
    check_deletion_safety cfg ident count = Decision.Blocked r := by
  cases hc : check_deletion_safety cfg ident count with
  | Allowed =>
    exfalso
    unfold final_deletion_step at h
    rw [hc] at h
    rcases delres with _ | ⟨k, det⟩ <;> simp at h
  | Blocked r0 =>
    unfold final_deletion_step at h
    rw [hc] at h
    simp at h
    rw [h]

/-- Helper: the trace of the deletion block is the base followed by the
policy-check event of the evaluation and a tail free of policy-check and
prompt events. -/
theorem final_deletion_step_trace (cfg : SafetyConfig) (ident : ModelIdentifier)
    (count : Int) (delres : Option (Int × List (String × Int))) (base : List CmdEvent) :
    ∃ tail, (final_deletion_step cfg ident count delres base).1 =
        base ++ CmdEvent.policyChecked (check_deletion_safety cfg ident count) :: tail ∧
      (∀ d, CmdEvent.policyChecked d ∉ tail) ∧ CmdEvent.promptShown ∉ tail := by
  unfold final_deletion_step
  cases hc : check_deletion_safety cfg ident count with
  | Blocked r => exact ⟨[], by simp⟩
  | Allowed => rcases delres with _ | ⟨k, det⟩ <;> exact ⟨[CmdEvent.deleteCalled], by simp⟩

/-- Claim C1: for every model identifier and count the safety evaluation
applies the rules in the fixed order disabled, excluded namespace,
excluded identifier, count above threshold, reporting the first failing
rule, and returns Allowed when no rule fails: check_deletion_safety
coincides with the flat rule chain evaluate_spec of the specification. -/
theorem check_deletion_safety_follows_rule_order :
    ∀ (cfg : SafetyConfig) (m : ModelIdentifier) (count : Int),
      check_deletion_safety cfg m count = evaluate_spec cfg m count := by
  intro cfg m count
  unfold check_deletion_safety can_delete_model allows_bulk_delete evaluate_spec
  split_ifs <;> rfl

/-- Claim C7: for every count strictly above the max-without-confirmation
threshold the evaluation is Blocked, whatever the exclusion state and the
enabled flag are. -/
theorem over_threshold_always_blocked :
    ∀ (cfg : SafetyConfig) (m : ModelIdentifier) (count : Int),
      count > cfg.max_objects_without_confirmation →
      check_deletion_safety cfg m count ≠ Decision.Allowed := by
  intro cfg m count h
  unfold check_deletion_safety can_delete_model allows_bulk_delete
  split_ifs <;> simp_all

/-- Witness for claim C7 at count 150 against the default limits. -/
theorem over_threshold_always_blocked_witness :
    (150 : Int) > (100 : Int) ∧
      check_deletion_safety ⟨true, false, [], [], 100, 10, true, false⟩
        ⟨"shop", "Product"⟩ 150 ≠ Decision.Allowed :=
  ⟨by decide,
   over_threshold_always_blocked ⟨true, false, [], [], 100, 10, true, false⟩
     ⟨"shop", "Product"⟩ 150 (by decide)⟩

/-- Claim C8: requires_confirmation holds exactly when the count is
strictly above the require-confirmation-above threshold, and that
threshold never influences the Allowed or Blocked outcome of the
evaluation. -/
theorem requires_confirmation_above_only :
    ∀ (cfg : SafetyConfig) (m : ModelIdentifier) (count v : Int),
      (requires_confirmation cfg count = true ↔
        count > cfg.require_confirmation_above) ∧
      check_deletion_safety { cfg with require_confirmation_above := v } m count =
        check_deletion_safety cfg m count := by
  intro cfg m count v
  constructor
  · simp [requires_confirmation]
  · rfl

/-- Claim C9: when DJANGO_DELETE_ALL_DISABLED lowercases to true or 1, the
loaded policy has enabled false, whatever the settings values and the
production state are. -/
theorem explicit_disable_forces_disabled :
    ∀ (s : DeleteAllSettings) (env : OsEnviron),
      (toLowerStr env.django_delete_all_disabled = "true" ∨
       toLowerStr env.django_delete_all_disabled = "1") →
      (load_settings s env).enabled = false := by
  intro s env h
  unfold load_settings apply_environment_overrides
  rcases h with h | h <;> simp [h]

/-- Witness for claim C9 with ENABLED and PRODUCTION_ENABLED both true, a
production DJANGO_ENV and the disable variable spelled TRUE. -/
theorem explicit_disable_forces_disabled_witness :
    toLowerStr "TRUE" = "true" ∧
      (load_settings ⟨true, true, [], [], 100, 10, true, false⟩
        ⟨"production", "TRUE"⟩).enabled = false :=
  ⟨by decide,
   explicit_disable_forces_disabled ⟨true, true, [], [], 100, 10, true, false⟩
     ⟨"production", "TRUE"⟩ (Or.inl (by decide))⟩

/-- Claim C2 fails as stated: with the deployment-environment variable
unset, a configured datastore name production_db that raises the naming
heuristic of the spec, and production mode not enabled, the constructed
policy still has enabled true — the construction-time override of
safety.py reads only DJANGO_ENV and never consults the datastore name. -/
theorem construction_override_ignores_db_name :
    production_indicator_spec ⟨"", ""⟩ "production_db" = true ∧
      defaultSettings.PRODUCTION_ENABLED = false ∧
      (load_settings defaultSettings ⟨"", ""⟩).enabled = true :=
  ⟨by decide, rfl, by decide⟩

/-- Claim C2 amended: at construction, when the deployment-environment
variable names a production environment and production mode is not
explicitly enabled, the constructed policy has enabled false regardless of
the ENABLED value; the datastore-name heuristic plays no part at
construction, belonging instead to the per-invocation environment check of
the management command. -/
theorem production_env_forces_disabled :
    ∀ (s : DeleteAllSettings) (env : OsEnviron),
      isProdEnvName env.django_env = true →
      s.PRODUCTION_ENABLED = false →
      (load_settings s env).enabled = false := by
  intro s env h hp
  unfold load_settings apply_environment_overrides
  split_ifs <;> first | rfl | simp_all

/-- Witness for the amended claim C2: DJANGO_ENV spelled PROD disables the
default configuration. -/
theorem production_env_forces_disabled_witness :
    isProdEnvName "PROD" = true ∧
      (load_settings defaultSettings ⟨"PROD", ""⟩).enabled = false :=
  ⟨by decide,
   production_env_forces_disabled defaultSettings ⟨"PROD", ""⟩ (by decide) rfl⟩

/-- Claim C4: with the dry-run flag set the ORM delete call is never made,
and a dry run that reaches the counting step with records present reports
the count and terminates as a dry run. -/
theorem dry_run_never_deletes :
    ∀ (cfg : SafetyConfig) (e : CommandEnv) (app_label : String) (o : CommandOptions),
      o.dry_run = true →
      CmdEvent.deleteCalled ∉ (command_handle cfg e app_label o).1 ∧
      ((is_safe_environment e = true ∨ o.production_override = true) →
        e.appExists = true → o.model_name.isSome = true → e.modelExists = true →
        ¬e.object_count = 0 →
        command_handle cfg e app_label o =
          ([CmdEvent.wroteFoundCount e.object_count],
           CmdOutcome.dryRun e.object_count)) := by
  intro cfg e app_label o hd
  constructor
  · cases hmn : o.model_name with
    | none => unfold command_handle; simp only [hmn]; split_ifs <;> simp_all
    | some s => unfold command_handle; simp only [hmn]; split_ifs <;> simp_all
  · intro hsafe happ hsome hmodel hcount
    obtain ⟨s, hs⟩ := Option.isSome_iff_exists.mp hsome
    rcases hsafe with h1 | h1 <;>
      simp [command_handle, hd, hs, h1, happ, hmodel, hcount]

/-- Witness for claim C4: a dry run over five records with a permissive
configuration makes no delete call. -/
theorem dry_run_never_deletes_witness :
    CmdEvent.deleteCalled ∉
      (command_handle ⟨true, false, [], [], 100, 10, true, false⟩
        ⟨true, true, "", "db", true, true, "Product", 5, "yes", some (5, [])⟩
        "shop" ⟨some "Product", false, true, false⟩).1 :=
  (dry_run_never_deletes ⟨true, false, [], [], 100, 10, true, false⟩
    ⟨true, true, "", "db", true, true, "Product", 5, "yes", some (5, [])⟩
    "shop" ⟨some "Product", false, true, false⟩ rfl).1

/-- Claim C10: a zero-count target makes the command return with the
nothing-to-delete warning before the policy evaluation, the prompt and the
delete call, whatever the configuration is. -/
theorem zero_count_returns_before_any_check :
    ∀ (cfg : SafetyConfig) (e : CommandEnv) (app_label s : String) (o : CommandOptions),
      (is_safe_environment e = true ∨ o.production_override = true) →
      e.appExists = true → o.model_name = some s → e.modelExists = true →
      e.object_count = 0 →
      command_handle cfg e app_label o = ([], CmdOutcome.nothingToDelete) := by
  intro cfg e app_label s o hsafe happ hmn hmodel hcount
  rcases hsafe with h1 | h1 <;>
    simp [command_handle, h1, happ, hmn, hmodel, hcount]

/-- Witness for claim C10: zero records of an excluded model under a
disabled policy still give the nothing-to-delete return. -/
theorem zero_count_returns_before_any_check_witness :
    command_handle ⟨false, false, ["auth"], [], 100, 10, true, false⟩
      ⟨true, true, "", "db", true, true, "User", 0, "yes", some (0, [])⟩
      "auth" ⟨some "User", false, false, false⟩ = ([], CmdOutcome.nothingToDelete) :=
  zero_count_returns_before_any_check ⟨false, false, ["auth"], [], 100, 10, true, false⟩
    ⟨true, true, "", "db", true, true, "User", 0, "yes", some (0, [])⟩
    "auth" "User" ⟨some "User", false, false, false⟩ (Or.inl (by decide)) rfl rfl rfl rfl

/-- Claim C6: a succeeded outcome is only produced after the safety
evaluation returned Allowed for the same identifier and count in the same
invocation, in the admin action and in the management command alike. -/
theorem success_only_after_allowed :
    (∀ (cfg : SafetyConfig) (m : ModelIdentifier) (e : AdminEnv) (n : Int),
      (delete_all_action cfg m e).outcome = AdminOutcome.successMessage n →
      check_deletion_safety cfg m e.object_count = Decision.Allowed) ∧
    (∀ (cfg : SafetyConfig) (e : CommandEnv) (app_label : String) (o : CommandOptions)
        (n : Int),
      (command_handle cfg e app_label o).2 = CmdOutcome.succeeded n →
      check_deletion_safety cfg ⟨app_label, e.model_class_name⟩ e.object_count =
        Decision.Allowed) := by
  constructor
  · intro cfg m e n h
    cases hc : check_deletion_safety cfg m e.object_count with
    | Allowed => rfl
    | Blocked r =>
      exfalso
      unfold delete_all_action at h
      rw [hc] at h
      split_ifs at h
  · intro cfg e app_label o n h
    cases hmn : o.model_name with
    | none =>
      unfold command_handle at h
      rw [hmn] at h
      split_ifs at h
    | some s =>
      unfold command_handle at h
      rw [hmn] at h
      split_ifs at h <;>
        exact final_deletion_step_succeeded _ _ _ _ _ _ h

/-- Witness for claim C6: a completed admin deletion of five records
implies the evaluation was Allowed at count five. -/
theorem success_only_after_allowed_witness :
    check_deletion_safety ⟨true, false, [], [], 100, 10, true, false⟩
      ⟨"shop", "Product"⟩ 5 = Decision.Allowed :=
  success_only_after_allowed.1 ⟨true, false, [], [], 100, 10, true, false⟩
    ⟨"shop", "Product"⟩ ⟨true, 5, true, some (5, [])⟩ 5 (by decide)

/-- Claim C3 fails as stated: a blocked admin invocation with auditing
enabled surfaces the reason but writes no audit attempt entry —
log_deletion_attempt is only reached after the safety check passes, and
the management command never calls it at all. -/
theorem blocked_admin_writes_no_attempt_entry :
    (delete_all_action ⟨false, false, [], [], 100, 10, true, false⟩ ⟨"shop", "Product"⟩
        ⟨true, 5, true, some (5, [])⟩).outcome =
      AdminOutcome.blockedMessage BlockReason.disabled ∧
    (delete_all_action ⟨false, false, [], [], 100, 10, true, false⟩ ⟨"shop", "Product"⟩
        ⟨true, 5, true, some (5, [])⟩).attemptLogged = false :=
  ⟨by decide, by decide⟩

/-- Claim C3 amended: every invocation on which the safety evaluation
returns Blocked terminates with the blocking reason surfaced to the
caller, but the audit attempt is not recorded — the attempt entry is
written only after the safety check passes — and no deletion happens. -/
theorem blocked_surfaces_reason_without_audit :
    (∀ (cfg : SafetyConfig) (m : ModelIdentifier) (e : AdminEnv) (r : BlockReason),
      (delete_all_action cfg m e).outcome = AdminOutcome.blockedMessage r →
      delete_all_action cfg m e =
        ⟨AdminOutcome.blockedMessage r, false, false, false⟩) ∧
    (∀ (cfg : SafetyConfig) (e : CommandEnv) (app_label : String) (o : CommandOptions)
        (r : BlockReason),
      (command_handle cfg e app_label o).2 = CmdOutcome.blockedBySafety r →
      CmdEvent.deleteCalled ∉ (command_handle cfg e app_label o).1) := by
  constructor
  · intro cfg m e r h
    unfold delete_all_action at h ⊢
    cases hc : check_deletion_safety cfg m e.object_count with
    | Allowed =>
      exfalso
      rw [hc] at h
      rcases hdel : e.delete_result with _ | ⟨k, det⟩ <;> rw [hdel] at h <;>
        split_ifs at h
    | Blocked r0 =>
      rw [hc] at h
      split_ifs at h ⊢ <;> simp_all
  · intro cfg e app_label o r h
    cases hmn : o.model_name with
    | none =>
      unfold command_handle at h ⊢
      rw [hmn] at h ⊢
      split_ifs at h ⊢
    | some s =>
      unfold command_handle at h ⊢
      rw [hmn] at h ⊢
      split_ifs at h ⊢ <;>
        (rw [final_deletion_step_of_blocked _ _ _ _ _ _
          (final_deletion_step_blocked_of_snd _ _ _ _ _ _ h)]; simp)

/-- Witness for the amended claim C3: a blocked admin invocation over
seven records gives the blocked record with nothing logged and nothing
deleted. -/
theorem blocked_surfaces_reason_without_audit_witness :
    delete_all_action ⟨false, false, [], [], 100, 10, true, false⟩ ⟨"blog", "Post"⟩
        ⟨true, 7, false, none⟩ =
      ⟨AdminOutcome.blockedMessage BlockReason.disabled, false, false, false⟩ :=
  blocked_surfaces_reason_without_audit.1 ⟨false, false, [], [], 100, 10, true, false⟩
    ⟨"blog", "Post"⟩ ⟨true, 7, false, none⟩ BlockReason.disabled (by decide)

/-- Claim C5 fails as stated: under a disabled policy, a non-forced
non-dry command run over five records shows the interactive prompt and
still ends blocked — the prompt precedes the policy evaluation, so a
Blocked result does not prevent it. -/
theorem prompt_shown_despite_blocked_policy :
    CmdEvent.promptShown ∈
        (command_handle ⟨false, false, [], [], 100, 10, true, false⟩
          ⟨true, true, "", "db", true, true, "Product", 5, "yes", some (5, [])⟩
          "shop" ⟨some "Product", false, false, false⟩).1 ∧
      (command_handle ⟨false, false, [], [], 100, 10, true, false⟩
          ⟨true, true, "", "db", true, true, "Product", 5, "yes", some (5, [])⟩
          "shop" ⟨some "Product", false, false, false⟩).2 =
        CmdOutcome.blockedBySafety BlockReason.disabled :=
  ⟨by decide, by decide⟩

/-- Claim C5 amended: in the management command the interactive prompt
precedes the policy evaluation — whenever a non-forced invocation reaches
the policy check, the prompt was already shown — while the admin action
does evaluate the policy before its confirmation page, whose display
implies the evaluation was Allowed. -/
theorem prompt_precedes_policy_check :
    (∀ (cfg : SafetyConfig) (e : CommandEnv) (app_label : String) (o : CommandOptions)
        (d : Decision),
      o.force = false →
      CmdEvent.policyChecked d ∈ (command_handle cfg e app_label o).1 →
      ∃ t1 t2 t3, (command_handle cfg e app_label o).1 =
        t1 ++ CmdEvent.promptShown :: t2 ++ CmdEvent.policyChecked d :: t3) ∧
    (∀ (cfg : SafetyConfig) (m : ModelIdentifier) (e : AdminEnv) (c : Int) (b : Bool),
      (delete_all_action cfg m e).outcome = AdminOutcome.confirmationPage c b →
      check_deletion_safety cfg m e.object_count = Decision.Allowed) := by
  constructor
  · intro cfg e app_label o d hf h
    cases hmn : o.model_name with
    | none =>
      exfalso
      unfold command_handle at h
      rw [hmn] at h
      split_ifs at h <;> simp_all
    | some s =>
      unfold command_handle at h ⊢
      rw [hmn, hf] at h ⊢
      split_ifs at h ⊢
      all_goals try (exfalso; simp_all; done)
      obtain ⟨tail, htr, hnp, hnprompt⟩ :=
        final_deletion_step_trace cfg ⟨app_label, e.model_class_name⟩ e.object_count
          e.delete_result
          [CmdEvent.wroteFoundCount e.object_count, CmdEvent.promptShown]
      rw [htr] at h ⊢
      simp only [List.mem_append, List.mem_cons] at h
      have hd : d = check_deletion_safety cfg ⟨app_label, e.model_class_name⟩
          e.object_count := by
        rcases h with (h | h) | h | h
        · exact absurd h (by simp)
        · exact absurd h (by simp)
        · exact (CmdEvent.policyChecked.injEq _ _).mp h
        · exact absurd h (hnp d)
      subst hd
      exact ⟨[CmdEvent.wroteFoundCount e.object_count], [], tail, by simp⟩
  · intro cfg m e c b h
    cases hc : check_deletion_safety cfg m e.object_count with
    | Allowed => rfl
    | Blocked r =>
      exfalso
      unfold delete_all_action at h
      rw [hc] at h
      split_ifs at h

/-- Witness for the amended claim C5: the successful interactive run over
five records has its prompt event before its policy-check event. -/
theorem prompt_precedes_policy_check_witness :
    ∃ t1 t2 t3,
      (command_handle ⟨true, false, [], [], 100, 10, true, false⟩
          ⟨true, true, "", "db", true, true, "Product", 5, "yes", some (5, [])⟩
          "shop" ⟨some "Product", false, false, false⟩).1 =
        t1 ++ CmdEvent.promptShown :: t2 ++
          CmdEvent.policyChecked Decision.Allowed :: t3 :=
  prompt_precedes_policy_check.1 ⟨true, false, [], [], 100, 10, true, false⟩
    ⟨true, true, "", "db", true, true, "Product", 5, "yes", some (5, [])⟩
    "shop" ⟨some "Product", false, false, false⟩ Decision.Allowed rfl (by decide)
